import Mathlib

/-!
Shallow embedding of `src/main.py` (an event-triggered ESL video feedback
pipeline) and proofs of its specified properties.

The Python program has three functions:
 - `esl_video_analyzer(cloud_event)`: the orchestrator, triggered on upload;
 - `transcribe_video(gcs_uri)`: calls the speech service and joins the results;
 - `save_report(user_id, original_file_name, report_text)`: writes the report.

External services (speech recognition, generative model, object storage) are
modelled as an explicit environment `Env` of response functions; the embedded
orchestrator returns the full trace of its run: the log lines it printed, the
service calls it made, and whether an uncaught exception propagated out.
-/

/-- The Python `s.split(sep)` operation for a single-character separator, on the character
list of the string: splitting the empty list yields `[[]]`, a separator at
either end yields an empty segment there, just as in Python. -/
def splitChar (sep : Char) : List Char → List (List Char)
  | [] => [[]]
  | c :: rest =>
    if c = sep then [] :: splitChar sep rest
    else
      match splitChar sep rest with
      | [] => [[c]]
      | h :: t => (c :: h) :: t

/-- Python's `file_path.split('/')` (line 36 of `main.py`): split on the
separator character into the list of segments. -/
def pySplit (s : String) (sep : Char) : List String :=
  (splitChar sep s.toList).map fun cs => String.mk cs

/-- The Python `sep.join(xs)` operation as used on line 90 of `main.py`. -/
def pyJoin (sep : String) : List String → String
  | [] => ""
  | [x] => x
  | x :: xs => x ++ sep ++ pyJoin sep xs

/- The configuration constants of `main.py`, lines 14-16. -/

def REPORTS_BUCKET_NAME : String := "esl-feedback-reports-cloudgens"

def PROJECT_ID : String := "Esl-Feedback-Agent"

def LOCATION : String := "us-central1"

/-- One alternative of a recognized speech segment; the code reads only its
`transcript` field (`main.py` line 89). -/
structure SpeechAlternative where
  transcript : String
deriving DecidableEq, Repr

/-- One recognized segment of the speech response: an ordered list of
alternatives, of which the code takes `alternatives[0]` (line 89). -/
structure SpeechResult where
  alternatives : List SpeechAlternative
deriving DecidableEq, Repr

/-- Outcome of the blocking speech call `operation.result(timeout=1800)`
(line 87): either the ordered result list, or an exception (timeout or other
service error) — the Python code wraps this call in no `try`. -/
inductive SpeechOutcome where
  | results (rs : List SpeechResult)
  | raise
deriving DecidableEq, Repr

/-- Outcome of `model.generate_content(prompt)` (line 126): the response text,
or an uncaught service exception. -/
inductive GenOutcome where
  | text (t : String)
  | raise
deriving DecidableEq, Repr

/-- Outcome of `blob.upload_from_string(...)` (line 139): success, or an
uncaught storage exception. -/
inductive StoreOutcome where
  | ok
  | raise
deriving DecidableEq, Repr

/-- The storage write performed by `save_report` (lines 130-141): destination
bucket, object key, content, and content type. -/
structure StorageWrite where
  bucket : String
  objectKey : String
  content : String
  contentType : String
deriving DecidableEq, Repr

/-- A service call made by one invocation of the pipeline. -/
inductive Call where
  | transcribe (uri : String)
  | generate (prompt : String)
  | store (w : StorageWrite)
deriving DecidableEq, Repr

/-- The environment of external services: responses of the speech service by
URI, of the generative model by prompt, and of the storage write by write. -/
structure Env where
  speech : String → SpeechOutcome
  gen : String → GenOutcome
  store : StorageWrite → StoreOutcome

/-- The observable trace of one invocation: printed log lines, service calls
made, and whether an uncaught exception propagated to the hosting runtime. -/
structure RunResult where
  logs : List String
  calls : List Call
  exn : Bool
deriving DecidableEq, Repr

/-- Outcome of the inline path parsing of `esl_video_analyzer`, lines 33-46:
the guarded-format failure (line 37), the `except IndexError` handler
(line 44), or success with `(user_id, file_name)` (lines 41-42). -/
inductive ParseOutcome where
  | invalid
  | indexError
  | ok (user_id file_name : String)
deriving DecidableEq, Repr

/-- Lines 36-46 of `main.py`: split `file_path` on `'/'`; if there are fewer
than 3 segments or the first is not `"uploads"`, fail; otherwise read
`parts[1]` and `parts[2]` (an out-of-range read would be the `IndexError`
branch). `pySplit` never returns `[]`, so `parts.headD ""` is the Python
expression `parts[0]`. -/
def parse_path (file_path : String) : ParseOutcome :=
  let parts := pySplit file_path '/'
  if parts.length < 3 ∨ ¬ (parts.headD "" = "uploads") then ParseOutcome.invalid
  else
    match parts[1]?, parts[2]? with
    | some user_id, some file_name => ParseOutcome.ok user_id file_name
    | _, _ => ParseOutcome.indexError

/-- Line 49 of `main.py`: the GCS URI of the uploaded object. -/
def gcs_uri (bucket_name file_path : String) : String :=
  "gs://" ++ bucket_name ++ "/" ++ file_path

/- The log lines printed by `main.py`, verbatim. -/

def detectedMsg (bucket_name file_path : String) : String :=
  "New file detected: " ++ gcs_uri bucket_name file_path

def badFormatMsg (file_path : String) : String :=
  "File path \x27" ++ file_path ++
    "\x27 is not in the expected \x27uploads/userID/filename\x27 format. Aborting."

def indexErrorMsg (file_path : String) : String :=
  "File path \x27" ++ file_path ++
    "\x27 is not in the expected format \x27uploads/userID/filename\x27. Aborting."

def processingMsg (file_name user_id : String) : String :=
  "Processing file: \x27" ++ file_name ++ "\x27 for user: \x27" ++ user_id ++ "\x27."

def waitingMsg : String := "Waiting for transcription to complete..."

def noTranscriptMsg (user_id : String) : String :=
  "Could not transcribe video for user " ++ user_id ++ ". Aborting."

def transcribedMsg (user_id : String) : String :=
  "Successfully transcribed video for user " ++ user_id ++ "."

def noReportMsg (user_id : String) : String :=
  "Could not generate report for user " ++ user_id ++ ". Aborting."

def generatedMsg (user_id : String) : String :=
  "Successfully generated report for user " ++ user_id ++ "."

def savedMsg (rfn : String) : String :=
  "Report saved to gs://" ++ REPORTS_BUCKET_NAME ++ "/" ++ rfn

def completeMsg (file_name user_id : String) : String :=
  "Process complete for \x27" ++ file_name ++ "\x27 for user \x27" ++ user_id ++ "\x27."

/-- Lines 71-90, `transcribe_video`: given the outcome of the blocking speech
call, build the transcript
`"\n".join(result.alternatives[0].transcript for result in response.results)`.
`Except.error ()` models an uncaught exception: the timeout or service error of
`operation.result`, or the `IndexError` of `alternatives[0]` on a segment with
no alternatives. -/
def transcribe_video (o : SpeechOutcome) : Except Unit String :=
  match o with
  | SpeechOutcome.raise => Except.error ()
  | SpeechOutcome.results rs =>
    match rs.mapM fun r => r.alternatives[0]? with
    | none => Except.error ()
    | some alts => Except.ok (pyJoin "\n" (alts.map SpeechAlternative.transcript))

/-- Lines 98-124 of `main.py`: the fixed coaching prompt with the transcript
embedded verbatim between the `---` delimiters. -/
def feedback_prompt (transcript : String) : String :=
  "\n    You are an expert ESL teaching coach. Your task is to analyze the following transcript from an ESL class and provide a feedback report. The report should be divided into two sections: \"Strengths\" and \"Improvements\".\n\n    When analyzing the transcript, please consider the following aspects of effective ESL teaching:\n\n    **For Strengths, look for:**\n    * Clear Instructions\n    * High Student Talk Time (STT)\n    * Positive Reinforcement and Error Correction\n    * Engaging Activities\n    * Scaffolding and support\n    * Concept Checking Questions (CCQs)\n\n    **For Improvements, look for:**\n    * Lack of Clarity in instructions\n    * Dominating Teacher Talk Time (TTT)\n    * Missed Opportunities for Correction\n    * Pacing issues (too fast or too slow)\n    * Lack of Student Engagement\n\n    Here is the transcript of the ESL class:\n    ---\n    " ++ transcript ++ "\n    ---\n\n    Please generate the feedback report now in Markdown format.\n    "

/-- Line 136 of `main.py`: the destination key of the report. -/
def report_file_name (user_id original_file_name : String) : String :=
  "reports/" ++ user_id ++ "/feedback-for-" ++ original_file_name ++ ".txt"

/-- Lines 130-141, `save_report`: the write it issues to the reports bucket —
`report_text` at `reports/{user_id}/feedback-for-{original_file_name}.txt`
with content type `text/plain; charset=utf-8`. -/
def save_report (user_id original_file_name report_text : String) : StorageWrite :=
  { bucket := REPORTS_BUCKET_NAME
    objectKey := report_file_name user_id original_file_name
    content := report_text
    contentType := "text/plain; charset=utf-8" }

/-- Lines 65-68 (and 130-141): the final stage. The store call is issued; on a
storage exception it propagates (`save_report` has no `try`), otherwise the
two closing log lines are printed. -/
def runStore (env : Env) (user_id file_name feedback_report : String)
    (logs : List String) (calls : List Call) : RunResult :=
  let w := save_report user_id file_name feedback_report
  match env.store w with
  | StoreOutcome.raise => { logs := logs, calls := calls ++ [Call.store w], exn := true }
  | StoreOutcome.ok =>
    { logs := logs ++ [savedMsg (report_file_name user_id file_name),
        completeMsg file_name user_id]
      calls := calls ++ [Call.store w]
      exn := false }

/-- Lines 57-63 (and 93-127): the generation stage. The model is called on the
fixed prompt; a service exception propagates; an empty response text is the
`if not feedback_report` abort; otherwise the pipeline saves the report. -/
def runGen (env : Env) (user_id file_name transcript : String)
    (logs : List String) (calls : List Call) : RunResult :=
  let pr := feedback_prompt transcript
  match env.gen pr with
  | GenOutcome.raise => { logs := logs, calls := calls ++ [Call.generate pr], exn := true }
  | GenOutcome.text feedback_report =>
    if feedback_report = "" then
      { logs := logs ++ [noReportMsg user_id]
        calls := calls ++ [Call.generate pr]
        exn := false }
    else
      runStore env user_id file_name feedback_report
        (logs ++ [generatedMsg user_id]) (calls ++ [Call.generate pr])

/-- Lines 48-55 (and 71-90): the transcription stage. The speech service is
called on the object URI; an exception out of `transcribe_video` propagates;
an empty transcript is the `if not transcript` abort; otherwise the pipeline
moves on to generation. -/
def runTranscribe (env : Env) (bucket_name file_path user_id file_name : String)
    (logs : List String) : RunResult :=
  let uri := gcs_uri bucket_name file_path
  let calls := [Call.transcribe uri]
  let logs := logs ++ [waitingMsg]
  match transcribe_video (env.speech uri) with
  | Except.error _ => { logs := logs, calls := calls, exn := true }
  | Except.ok transcript =>
    if transcript = "" then
      { logs := logs ++ [noTranscriptMsg user_id], calls := calls, exn := false }
    else
      runGen env user_id file_name transcript
        (logs ++ [transcribedMsg user_id]) calls

/-- Lines 20-68, `esl_video_analyzer`: parse the object path; on either parse
failure print the diagnostic and return with no service call made; on success
run transcription, generation and storage in sequence. -/
def esl_video_analyzer (env : Env) (bucket_name file_path : String) : RunResult :=
  match parse_path file_path with
  | ParseOutcome.invalid =>
    { logs := [detectedMsg bucket_name file_path, badFormatMsg file_path]
      calls := [], exn := false }
  | ParseOutcome.indexError =>
    { logs := [detectedMsg bucket_name file_path, indexErrorMsg file_path]
      calls := [], exn := false }
  | ParseOutcome.ok user_id file_name =>
    runTranscribe env bucket_name file_path user_id file_name
      [detectedMsg bucket_name file_path, processingMsg file_name user_id]

/- Derived observations on a run, used to state the properties. -/

/-- Whether the run made any generation call. -/
def callsGenerate (r : RunResult) : Bool :=
  r.calls.any fun c => match c with | Call.generate _ => true | _ => false

/-- Whether the run made any storage call. -/
def callsStore (r : RunResult) : Bool :=
  r.calls.any fun c => match c with | Call.store _ => true | _ => false

/-- The storage writes a run issued, in order. -/
def runWrites (env : Env) (bucket_name file_path : String) : List StorageWrite :=
  (esl_video_analyzer env bucket_name file_path).calls.filterMap
    fun c => match c with | Call.store w => some w | _ => none

/-- Object storage as a map from bucket and key to content; a write replaces
whatever was at its destination. -/
def applyWrite (σ : String → String → Option String) (w : StorageWrite) :
    String → String → Option String :=
  fun b k => if b = w.bucket ∧ k = w.objectKey then some w.content else σ b k

/-- Apply a list of writes in order. -/
def applyWrites (σ : String → String → Option String) (ws : List StorageWrite) :
    String → String → Option String :=
  ws.foldl applyWrite σ

/-- The first alternative of a recognized segment (its `transcript`). -/
def topTranscript (r : SpeechResult) : String :=
  (r.alternatives.headD { transcript := "" }).transcript

/- Concrete service environments used by the witnesses and counterexample. -/

def env0 : Env :=
  { speech := fun _ => SpeechOutcome.results []
    gen := fun _ => GenOutcome.text ""
    store := fun _ => StoreOutcome.ok }

def envOk : Env :=
  { speech := fun _ => SpeechOutcome.results [{ alternatives := [{ transcript := "hi" }] }]
    gen := fun _ => GenOutcome.text "REPORT"
    store := fun _ => StoreOutcome.ok }

def envEmptyGen : Env :=
  { speech := fun _ => SpeechOutcome.results [{ alternatives := [{ transcript := "hi" }] }]
    gen := fun _ => GenOutcome.text ""
    store := fun _ => StoreOutcome.ok }

def envRaise : Env :=
  { speech := fun _ => SpeechOutcome.raise
    gen := fun _ => GenOutcome.text "REPORT"
    store := fun _ => StoreOutcome.ok }

def envGenRaise : Env :=
  { speech := fun _ => SpeechOutcome.results [{ alternatives := [{ transcript := "hi" }] }]
    gen := fun _ => GenOutcome.raise
    store := fun _ => StoreOutcome.ok }

def envStoreRaise : Env :=
  { speech := fun _ => SpeechOutcome.results [{ alternatives := [{ transcript := "hi" }] }]
    gen := fun _ => GenOutcome.text "REPORT"
    store := fun _ => StoreOutcome.raise }

/- Shared lemmas. -/

theorem splitChar_ne_nil (sep : Char) (cs : List Char) : splitChar sep cs ≠ [] := by
  induction cs with
  | nil => simp [splitChar]
  | cons c rest ih =>
    simp only [splitChar]
    by_cases h : c = sep
    · simp [h]
    · simp only [if_neg h]
      cases hs : splitChar sep rest with
      | nil => simp
      | cons x t => simp

theorem pySplit_ne_nil (s : String) (sep : Char) : pySplit s sep ≠ [] := by
  simp [pySplit]
  exact splitChar_ne_nil sep s.toList

/-- Closed form of the inline parser: the guard decides everything, and on
success the result is `(parts[1], parts[2])`; the `IndexError` branch never
fires. -/
theorem parse_path_eq (p : String) :
    parse_path p =
      if (pySplit p '/').length < 3 ∨ ¬ ((pySplit p '/').headD "" = "uploads")
      then ParseOutcome.invalid
      else ParseOutcome.ok ((pySplit p '/').getD 1 "") ((pySplit p '/').getD 2 "") := by
  unfold parse_path
  by_cases h : (pySplit p '/').length < 3 ∨ ¬ ((pySplit p '/').headD "" = "uploads")
  · rw [if_pos h, if_pos h]
  · rw [if_neg h, if_neg h]
    have h3 : 3 ≤ (pySplit p '/').length := by
      rcases not_or.mp h with ⟨h1, _⟩
      omega
    rw [List.getElem?_eq_getElem (by omega : 1 < (pySplit p '/').length),
      List.getElem?_eq_getElem (by omega : 2 < (pySplit p '/').length)]
    rw [List.getD_eq_getElem _ _ (by omega : 1 < (pySplit p '/').length),
      List.getD_eq_getElem _ _ (by omega : 2 < (pySplit p '/').length)]

/- Concrete service environments used by the witnesses. -/

theorem transcribe_video_nil : transcribe_video (SpeechOutcome.results []) = Except.ok "" := rfl

theorem mapM_top (rs : List SpeechResult) (h : ∀ r ∈ rs, r.alternatives ≠ []) :
    (rs.mapM fun r => r.alternatives[0]?) =
      some (rs.map fun r => r.alternatives.headD { transcript := "" }) := by
  induction rs with
  | nil => rfl
  | cons a l ih =>
    have ha : a.alternatives ≠ [] := h a (by simp)
    have h0 : a.alternatives[0]? = some (a.alternatives.headD { transcript := "" }) := by
      cases hv : a.alternatives with
      | nil => exact absurd hv ha
      | cons x xs => simp
    rw [List.mapM_cons, h0, ih fun r hr => h r (by simp [hr])]
    rfl

theorem splitChar_not_mem (sep : Char) (cs : List Char) (h : sep ∉ cs) :
    splitChar sep cs = [cs] := by
  induction cs with
  | nil => rfl
  | cons c rest ih =>
    have hc : ¬ c = sep := by rintro rfl; exact h (by simp)
    have hr : sep ∉ rest := fun hm => h (by simp [hm])
    simp only [splitChar, if_neg hc, ih hr]

theorem splitChar_append (sep : Char) (xs ys : List Char) (h : sep ∉ xs) :
    splitChar sep (xs ++ sep :: ys) = xs :: splitChar sep ys := by
  induction xs with
  | nil => simp [splitChar]
  | cons c rest ih =>
    have hc : ¬ c = sep := by rintro rfl; exact h (by simp)
    have hr : sep ∉ rest := fun hm => h (by simp [hm])
    rw [List.cons_append]
    simp only [splitChar, if_neg hc, ih hr]

theorem toList_append (s t : String) : (s ++ t).toList = s.toList ++ t.toList :=
  String.data_append s t

theorem pySplit_mid_empty (f : String) (hf : '/' ∉ f.toList) :
    pySplit ("uploads//" ++ f) '/' = ["uploads", "", f] := by
  unfold pySplit
  rw [toList_append]
  have e : "uploads//".toList = "uploads".toList ++ '/' :: ('/' :: []) := by decide
  rw [e, List.append_assoc, List.cons_append, List.cons_append, List.nil_append]
  rw [splitChar_append '/' _ _ (by decide)]
  rw [show ('/' :: f.toList) = [] ++ '/' :: f.toList from rfl]
  rw [splitChar_append '/' _ _ (by simp)]
  rw [splitChar_not_mem '/' _ hf]
  rfl

theorem pySplit_last_empty (u : String) (hu : '/' ∉ u.toList) :
    pySplit ("uploads/" ++ u ++ "/") '/' = ["uploads", u, ""] := by
  unfold pySplit
  rw [toList_append, toList_append]
  have e : "uploads/".toList = "uploads".toList ++ '/' :: [] := by decide
  have e2 : "/".toList = '/' :: [] := by decide
  rw [e, e2]
  simp only [List.append_assoc, List.cons_append, List.nil_append]
  rw [splitChar_append '/' _ _ (by decide)]
  rw [splitChar_append '/' _ _ hu]
  rfl

theorem runWrites_small (env : Env) (b p : String) :
    runWrites env b p = [] ∨ ∃ w, runWrites env b p = [w] := by
  unfold runWrites
  cases hp : parse_path p with
  | invalid => left; simp only [esl_video_analyzer, hp]; rfl
  | indexError => left; simp only [esl_video_analyzer, hp]; rfl
  | ok u f =>
    cases ht : transcribe_video (env.speech (gcs_uri b p)) with
    | error e => left; simp only [esl_video_analyzer, hp, runTranscribe, ht]; rfl
    | ok t =>
      simp only [esl_video_analyzer, hp, runTranscribe, ht]
      by_cases h0 : t = ""
      · rw [if_pos h0]; left; rfl
      · rw [if_neg h0]
        cases hg : env.gen (feedback_prompt t) with
        | raise => simp only [runGen, hg]; left; rfl
        | text r =>
          simp only [runGen, hg]
          by_cases hr : r = ""
          · rw [if_pos hr]; left; rfl
          · rw [if_neg hr]
            cases hst : env.store (save_report u f r) with
            | raise => simp only [runStore, hst]; right; exact ⟨_, rfl⟩
            | ok => simp only [runStore, hst]; right; exact ⟨_, rfl⟩


/-- C1: paths of the form `uploads/<id>/<name>` parse to `(id, name)`; paths
with fewer than 3 segments or a different first segment are invalid and the
pipeline makes zero service calls. -/
theorem C1_parse_and_no_calls (env : Env) (b p : String) :
    (3 ≤ (pySplit p '/').length → (pySplit p '/').headD "" = "uploads" →
      parse_path p =
        ParseOutcome.ok ((pySplit p '/').getD 1 "") ((pySplit p '/').getD 2 ""))
  ∧ ((pySplit p '/').length < 3 ∨ ¬ ((pySplit p '/').headD "" = "uploads") →
      parse_path p = ParseOutcome.invalid ∧ (esl_video_analyzer env b p).calls = []) := by
  constructor
  · intro h3 hh
    rw [parse_path_eq, if_neg (not_or.mpr ⟨by omega, not_not_intro hh⟩)]
  · intro h
    have hp : parse_path p = ParseOutcome.invalid := by rw [parse_path_eq, if_pos h]
    exact ⟨hp, by simp [esl_video_analyzer, hp]⟩

/-- Witness for C1 at the two scenario paths of the spec. -/
theorem C1_witness :
    parse_path "uploads/u42/lesson1.mp4" = ParseOutcome.ok "u42" "lesson1.mp4"
  ∧ parse_path "videos/lesson1.mp4" = ParseOutcome.invalid
  ∧ (esl_video_analyzer env0 "bkt" "videos/lesson1.mp4").calls = [] := by
  have h1 := (C1_parse_and_no_calls env0 "bkt" "uploads/u42/lesson1.mp4").1
    (by decide) (by decide)
  have h2 := (C1_parse_and_no_calls env0 "bkt" "videos/lesson1.mp4").2 (by decide)
  have e1 : (pySplit "uploads/u42/lesson1.mp4" '/').getD 1 "" = "u42" := by decide
  have e2 : (pySplit "uploads/u42/lesson1.mp4" '/').getD 2 "" = "lesson1.mp4" := by decide
  rw [e1, e2] at h1
  exact ⟨h1, h2.1, h2.2⟩

/-- C2: an empty transcription result list short-circuits generation and
storage; an empty generation result short-circuits storage. -/
theorem C2_short_circuit (env : Env) (b p t : String) :
    (env.speech (gcs_uri b p) = SpeechOutcome.results [] →
      callsGenerate (esl_video_analyzer env b p) = false
      ∧ callsStore (esl_video_analyzer env b p) = false)
  ∧ (transcribe_video (env.speech (gcs_uri b p)) = Except.ok t →
      env.gen (feedback_prompt t) = GenOutcome.text "" →
      callsStore (esl_video_analyzer env b p) = false) := by
  constructor
  · intro hs
    cases hp : parse_path p with
    | invalid => simp [esl_video_analyzer, hp, callsGenerate, callsStore]
    | indexError => simp [esl_video_analyzer, hp, callsGenerate, callsStore]
    | ok u f =>
      simp only [esl_video_analyzer, hp, runTranscribe, hs, transcribe_video_nil]
      simp [callsGenerate, callsStore]
  · intro ht hg
    cases hp : parse_path p with
    | invalid => simp [esl_video_analyzer, hp, callsStore]
    | indexError => simp [esl_video_analyzer, hp, callsStore]
    | ok u f =>
      simp only [esl_video_analyzer, hp, runTranscribe, ht]
      by_cases h0 : t = ""
      · simp [h0, callsStore]
      · simp only [if_neg h0, runGen, hg]
        simp [callsStore]

/-- Witness for C2: empty speech results and an empty generation result at a
concrete valid path. -/
theorem C2_witness :
    callsGenerate (esl_video_analyzer env0 "bkt" "uploads/u1/v.mp4") = false
  ∧ callsStore (esl_video_analyzer env0 "bkt" "uploads/u1/v.mp4") = false
  ∧ callsStore (esl_video_analyzer envEmptyGen "bkt" "uploads/u1/v.mp4") = false := by
  have h1 := (C2_short_circuit env0 "bkt" "uploads/u1/v.mp4" "").1 (by decide)
  have h2 := (C2_short_circuit envEmptyGen "bkt" "uploads/u1/v.mp4" "hi").2 rfl (by decide)
  exact ⟨h1.1, h1.2, h2⟩

/-- C3 fails as stated: a transcription-service error that raises (such as the
timeout of `operation.result`) is one of the four error kinds, yet the
exception propagates out of the function and no diagnostic abort message for
the file/user is logged — it is not handled like a malformed path. -/
theorem C3_counterexample :
    (esl_video_analyzer envRaise "bkt" "uploads/u1/lesson.mp4").exn = true
  ∧ noTranscriptMsg "u1" ∉ (esl_video_analyzer envRaise "bkt" "uploads/u1/lesson.mp4").logs := by
  decide

/-- C3 amended: the failures the code detects by value — malformed path,
empty transcription result, empty generation result — are logged with a
diagnostic identifying the file/user and abort the pipeline with no exception;
service-level exceptions (transcription errors/timeouts, generation errors,
storage-write errors) propagate to the hosting runtime with no abort
diagnostic logged. -/
theorem C3_error_handling (env : Env) (b p u f : String) :
    (parse_path p = ParseOutcome.invalid →
      (esl_video_analyzer env b p).exn = false
      ∧ (esl_video_analyzer env b p).logs = [detectedMsg b p, badFormatMsg p]
      ∧ (esl_video_analyzer env b p).calls = [])
  ∧ (parse_path p = ParseOutcome.ok u f →
      ((env.speech (gcs_uri b p) = SpeechOutcome.results [] →
          (esl_video_analyzer env b p).exn = false
          ∧ (esl_video_analyzer env b p).logs =
              [detectedMsg b p, processingMsg f u, waitingMsg, noTranscriptMsg u]
          ∧ callsGenerate (esl_video_analyzer env b p) = false)
       ∧ (env.speech (gcs_uri b p) = SpeechOutcome.raise →
          (esl_video_analyzer env b p).exn = true
          ∧ (esl_video_analyzer env b p).logs =
              [detectedMsg b p, processingMsg f u, waitingMsg])
       ∧ (∀ t, transcribe_video (env.speech (gcs_uri b p)) = Except.ok t → t ≠ "" →
          (env.gen (feedback_prompt t) = GenOutcome.text "" →
            (esl_video_analyzer env b p).exn = false
            ∧ (esl_video_analyzer env b p).logs =
                [detectedMsg b p, processingMsg f u, waitingMsg, transcribedMsg u,
                  noReportMsg u]
            ∧ callsStore (esl_video_analyzer env b p) = false)
          ∧ (env.gen (feedback_prompt t) = GenOutcome.raise →
            (esl_video_analyzer env b p).exn = true
            ∧ (esl_video_analyzer env b p).logs =
                [detectedMsg b p, processingMsg f u, waitingMsg, transcribedMsg u]))
       ∧ (∀ t r, transcribe_video (env.speech (gcs_uri b p)) = Except.ok t → t ≠ "" →
          env.gen (feedback_prompt t) = GenOutcome.text r → r ≠ "" →
          env.store (save_report u f r) = StoreOutcome.raise →
          (esl_video_analyzer env b p).exn = true
          ∧ (esl_video_analyzer env b p).logs =
              [detectedMsg b p, processingMsg f u, waitingMsg, transcribedMsg u,
                generatedMsg u]))) := by
  constructor
  · intro hp
    simp only [esl_video_analyzer, hp]
    simp
  · intro hp
    refine ⟨?_, ?_, ?_, ?_⟩
    · intro hs
      simp only [esl_video_analyzer, hp, runTranscribe, hs, transcribe_video_nil]
      simp [callsGenerate]
    · intro hs
      have ht : transcribe_video (env.speech (gcs_uri b p)) = Except.error () := by
        rw [hs]; rfl
      simp only [esl_video_analyzer, hp, runTranscribe, ht]
      simp
    · intro t ht hne
      constructor
      · intro hg
        simp only [esl_video_analyzer, hp, runTranscribe, ht]
        rw [if_neg hne]
        simp only [runGen, hg]
        simp [callsStore]
      · intro hg
        simp only [esl_video_analyzer, hp, runTranscribe, ht]
        rw [if_neg hne]
        simp only [runGen, hg]
        simp
    · intro t r ht hne hg hrne hst
      simp only [esl_video_analyzer, hp, runTranscribe, ht]
      rw [if_neg hne]
      simp only [runGen, hg]
      rw [if_neg hrne]
      simp only [runStore, hst]
      simp

/-- Witness for C3 (amended), exercising every handled and every propagating
branch at a concrete path. -/
theorem C3_witness :
    ((esl_video_analyzer env0 "bkt" "videos/x.mp4").exn = false
      ∧ (esl_video_analyzer env0 "bkt" "videos/x.mp4").calls = [])
  ∧ (esl_video_analyzer env0 "bkt" "uploads/u1/v.mp4").exn = false
  ∧ (esl_video_analyzer envRaise "bkt" "uploads/u1/v.mp4").exn = true
  ∧ (esl_video_analyzer envEmptyGen "bkt" "uploads/u1/v.mp4").exn = false
  ∧ (esl_video_analyzer envGenRaise "bkt" "uploads/u1/v.mp4").exn = true
  ∧ (esl_video_analyzer envStoreRaise "bkt" "uploads/u1/v.mp4").exn = true := by
  have h1 := (C3_error_handling env0 "bkt" "videos/x.mp4" "u1" "v.mp4").1 (by decide)
  have h2 := ((C3_error_handling env0 "bkt" "uploads/u1/v.mp4" "u1" "v.mp4").2
    (by decide)).1 (by decide)
  have h3 := (((C3_error_handling envRaise "bkt" "uploads/u1/v.mp4" "u1" "v.mp4").2
    (by decide)).2.1) rfl
  have h4 := ((((C3_error_handling envEmptyGen "bkt" "uploads/u1/v.mp4" "u1" "v.mp4").2
    (by decide)).2.2.1) "hi" rfl (by decide)).1 rfl
  have h5 := ((((C3_error_handling envGenRaise "bkt" "uploads/u1/v.mp4" "u1" "v.mp4").2
    (by decide)).2.2.1) "hi" rfl (by decide)).2 rfl
  have h6 := (((C3_error_handling envStoreRaise "bkt" "uploads/u1/v.mp4" "u1" "v.mp4").2
    (by decide)).2.2.2) "hi" "REPORT" rfl (by decide) rfl (by decide) rfl
  exact ⟨⟨h1.1, h1.2.2⟩, h2.1, h3.1, h4.1, h5.1, h6.1⟩

/-- C4: the transcript is the newline-join of the first alternative of each
segment, in order; the empty result list gives the empty transcript, and the
caller then makes no generation call. -/
theorem C4_transcript (rs : List SpeechResult) (env : Env) (b p u f : String) :
    ((∀ r ∈ rs, r.alternatives ≠ []) →
      transcribe_video (SpeechOutcome.results rs) =
        Except.ok (pyJoin "\n" (rs.map topTranscript)))
  ∧ transcribe_video (SpeechOutcome.results []) = Except.ok ""
  ∧ (parse_path p = ParseOutcome.ok u f →
      env.speech (gcs_uri b p) = SpeechOutcome.results [] →
      callsGenerate (esl_video_analyzer env b p) = false) := by
  refine ⟨?_, rfl, ?_⟩
  · intro h
    simp only [transcribe_video]
    rw [mapM_top rs h]
    simp only [List.map_map]
    congr 2
  · intro hp hs
    simp only [esl_video_analyzer, hp, runTranscribe, hs, transcribe_video_nil]
    simp [callsGenerate]

/-- Witness for C4 at the scenario response of the spec. -/
theorem C4_witness :
    transcribe_video (SpeechOutcome.results
      [{ alternatives := [{ transcript := "Hello class" }] },
       { alternatives := [{ transcript := "Today we learn colors" }] }]) =
      Except.ok "Hello class\nToday we learn colors"
  ∧ callsGenerate (esl_video_analyzer env0 "bkt" "uploads/u1/v.mp4") = false := by
  have h1 := (C4_transcript
    [{ alternatives := [{ transcript := "Hello class" }] },
     { alternatives := [{ transcript := "Today we learn colors" }] }]
    env0 "bkt" "uploads/u1/v.mp4" "u1" "v.mp4").1 (by decide)
  have h2 := (C4_transcript [] env0 "bkt" "uploads/u1/v.mp4" "u1" "v.mp4").2.2
    (by decide) (by decide)
  have e : pyJoin "\n" (List.map topTranscript
      [{ alternatives := [{ transcript := "Hello class" }] },
       { alternatives := [{ transcript := "Today we learn colors" }] }]) =
      "Hello class\nToday we learn colors" := by decide
  rw [e] at h1
  exact ⟨h1, h2⟩

/-- C5: every storage call the pipeline makes for a path parsed as `(u, f)`
targets the reports bucket at exactly `reports/<u>/feedback-for-<f>.txt`; the
destination is the pure function `report_file_name` of `(u, f)` alone. -/
theorem C5_destination (env : Env) (b p u f : String) (w : StorageWrite) :
    parse_path p = ParseOutcome.ok u f →
    Call.store w ∈ (esl_video_analyzer env b p).calls →
    w.bucket = REPORTS_BUCKET_NAME
    ∧ w.objectKey = "reports/" ++ u ++ "/feedback-for-" ++ f ++ ".txt" := by
  intro hp hw
  cases ht : transcribe_video (env.speech (gcs_uri b p)) with
  | error e =>
    simp only [esl_video_analyzer, hp, runTranscribe, ht] at hw
    simp at hw
  | ok t =>
    simp only [esl_video_analyzer, hp, runTranscribe, ht] at hw
    by_cases h0 : t = ""
    · rw [if_pos h0] at hw; simp at hw
    · rw [if_neg h0] at hw
      cases hg : env.gen (feedback_prompt t) with
      | raise => simp only [runGen, hg] at hw; simp at hw
      | text r =>
        simp only [runGen, hg] at hw
        by_cases hr : r = ""
        · rw [if_pos hr] at hw; simp at hw
        · rw [if_neg hr] at hw
          cases hst : env.store (save_report u f r) with
          | raise =>
            simp only [runStore, hst] at hw
            simp at hw
            subst hw
            exact ⟨rfl, rfl⟩
          | ok =>
            simp only [runStore, hst] at hw
            simp at hw
            subst hw
            exact ⟨rfl, rfl⟩

/-- Witness for C5 on a fully successful run. -/
theorem C5_witness :
    (save_report "u42" "lesson1.mp4" "REPORT").bucket = REPORTS_BUCKET_NAME
  ∧ (save_report "u42" "lesson1.mp4" "REPORT").objectKey =
      "reports/" ++ "u42" ++ "/feedback-for-" ++ "lesson1.mp4" ++ ".txt" :=
  C5_destination envOk "bkt" "uploads/u42/lesson1.mp4" "u42" "lesson1.mp4"
    (save_report "u42" "lesson1.mp4" "REPORT") (by decide) (by decide)

/-- C6: with more than 3 segments the parser still succeeds and returns only
segments 1 and 2; everything after the third segment is ignored. -/
theorem C6_extra_segments (p : String) :
    3 < (pySplit p '/').length →
    (pySplit p '/').headD "" = "uploads" →
    parse_path p =
      ParseOutcome.ok ((pySplit p '/').getD 1 "") ((pySplit p '/').getD 2 "") := by
  intro h3 hh
  rw [parse_path_eq, if_neg (not_or.mpr ⟨by omega, not_not_intro hh⟩)]

/-- Witness for C6: a filename containing `/` is truncated at the extra
separator. -/
theorem C6_witness :
    parse_path "uploads/u7/dir/clip.mp4" = ParseOutcome.ok "u7" "dir" := by
  have h := C6_extra_segments "uploads/u7/dir/clip.mp4" (by decide) (by decide)
  have e1 : (pySplit "uploads/u7/dir/clip.mp4" '/').getD 1 "" = "u7" := by decide
  have e2 : (pySplit "uploads/u7/dir/clip.mp4" '/').getD 2 "" = "dir" := by decide
  rw [e1, e2] at h
  exact h

/-- C7: `save_report` writes exactly the report text, as `text/plain` UTF-8,
to the reports bucket at `reports/<userId>/feedback-for-<fileName>.txt`,
replacing whatever object was at that destination. -/
theorem C7_save_report (u f t : String) (σ : String → String → Option String) :
    (save_report u f t).content = t
  ∧ (save_report u f t).contentType = "text/plain; charset=utf-8"
  ∧ (save_report u f t).bucket = REPORTS_BUCKET_NAME
  ∧ (save_report u f t).objectKey = "reports/" ++ u ++ "/feedback-for-" ++ f ++ ".txt"
  ∧ applyWrite σ (save_report u f t) REPORTS_BUCKET_NAME
      ("reports/" ++ u ++ "/feedback-for-" ++ f ++ ".txt") = some t := by
  refine ⟨rfl, rfl, rfl, rfl, ?_⟩
  simp [applyWrite, save_report, report_file_name]

/-- C8: a run issues at most one write, always at the same destination with
the same content for the same inputs and service responses, so replaying the
run leaves the object store exactly as after the first run (the second write
overwrites the first byte for byte). -/
theorem C8_idempotent (env : Env) (b p : String) (σ : String → String → Option String) :
    applyWrites (applyWrites σ (runWrites env b p)) (runWrites env b p)
      = applyWrites σ (runWrites env b p) := by
  rcases runWrites_small env b p with h | ⟨w, h⟩
  · rw [h]; rfl
  · rw [h]
    funext bb kk
    simp only [applyWrites, List.foldl_cons, List.foldl_nil, applyWrite]
    by_cases hb : bb = w.bucket ∧ kk = w.objectKey
    · rw [if_pos hb, if_pos hb]
    · rw [if_neg hb, if_neg hb]

/-- C9: the `except IndexError` branch of the parser is dead code — once the
guard has passed, `parts[1]` and `parts[2]` are in bounds. -/
theorem C9_index_error_dead (p : String) : parse_path p ≠ ParseOutcome.indexError := by
  rw [parse_path_eq]
  split <;> simp

/-- Witness for C9 at a concrete path. -/
theorem C9_witness : parse_path "uploads" ≠ ParseOutcome.indexError :=
  C9_index_error_dead "uploads"

/-- C10: the parser checks no segment for non-emptiness — an empty userId or
fileName segment validates, and the pipeline proceeds to a destination with an
empty path component such as `reports//feedback-for-<f>.txt`. -/
theorem C10_empty_segments (u f r : String) (env : Env) (b : String)
    (hu : '/' ∉ u.toList) (hf : '/' ∉ f.toList) :
    parse_path ("uploads//" ++ f) = ParseOutcome.ok "" f
  ∧ parse_path ("uploads/" ++ u ++ "/") = ParseOutcome.ok u ""
  ∧ report_file_name "" f = "reports//feedback-for-" ++ f ++ ".txt"
  ∧ (∀ t, transcribe_video (env.speech (gcs_uri b ("uploads//" ++ f))) = Except.ok t →
      t ≠ "" →
      env.gen (feedback_prompt t) = GenOutcome.text r → r ≠ "" →
      runWrites env b ("uploads//" ++ f) = [save_report "" f r]) := by
  have hp1 : parse_path ("uploads//" ++ f) = ParseOutcome.ok "" f := by
    rw [parse_path_eq, pySplit_mid_empty f hf]
    simp
  have hp2 : parse_path ("uploads/" ++ u ++ "/") = ParseOutcome.ok u "" := by
    rw [parse_path_eq, pySplit_last_empty u hu]
    simp
  refine ⟨hp1, hp2, rfl, ?_⟩
  intro t ht hne hg hrne
  unfold runWrites
  simp only [esl_video_analyzer, hp1, runTranscribe, ht]
  rw [if_neg hne]
  simp only [runGen, hg]
  rw [if_neg hrne]
  cases hst : env.store (save_report "" f r) with
  | raise => simp only [runStore, hst]; rfl
  | ok => simp only [runStore, hst]; rfl

/-- Witness for C10 at the example paths of the claim. -/
theorem C10_witness :
    parse_path "uploads//file" = ParseOutcome.ok "" "file"
  ∧ parse_path "uploads/u9/" = ParseOutcome.ok "u9" ""
  ∧ report_file_name "" "file" = "reports//feedback-for-file.txt"
  ∧ runWrites envOk "bkt" "uploads//file" = [save_report "" "file" "REPORT"] := by
  have h := C10_empty_segments "u9" "file" "REPORT" envOk "bkt" (by decide) (by decide)
  have e1 : ("uploads//" ++ "file" : String) = "uploads//file" := by decide
  have e2 : ("uploads/" ++ "u9" ++ "/" : String) = "uploads/u9/" := by decide
  have e3 : ("reports//feedback-for-" ++ "file" ++ ".txt" : String) =
      "reports//feedback-for-file.txt" := by decide
  refine ⟨?_, ?_, ?_, ?_⟩
  · rw [← e1]; exact h.1
  · rw [← e2]; exact h.2.1
  · rw [← e3]; exact h.2.2.1
  · rw [← e1]; exact h.2.2.2 "hi" rfl (by decide) rfl (by decide)
